import Mathlib

/-!
# Verification of the `VolumeMountController` (pkg/volumes/mounter.go)

Shallow embedding of the volume mount controller: the attach phase
(`attachMasterVolumes`), the device-wait / idempotent-mount step
(`safeFormatAndMount`) and the top-level orchestration
(`mountMasterVolumes`).

External collaborators (the volume provider, the mount backend and the
path translator) are modelled as environment records supplying their
responses; side-effecting calls made by the controller are recorded in an
effect trace.  The unbounded device-wait loop is executed with explicit
fuel: a `none` result means the loop is still polling after `fuel`
attempts (the real loop would still be running).
-/

namespace Volumes

/-- A storage volume, as in `pkg/volumes` (fields from the Go `Volume` struct
used by mounter.go). -/
structure Volume where
  ProviderID : String
  AttachedTo : String
  LocalDevice : String
  MountName : String
  Mountpoint : String
deriving DecidableEq, Repr

/-- One entry of the mount listing (`mount.MountPoint`): the mounted device
and the path it is mounted at. -/
structure MountPoint where
  Device : String
  Path : String
deriving DecidableEq, Repr

/-- Modelled from the spec: the configuration surface of the missing
`pkg/volumes` support code — the package-level `Containerized` boolean
selecting namespace-isolated execution mode, together with the host root
used by the path translator in that mode. -/
structure Config where
  Containerized : Bool
  rootfs : String
deriving DecidableEq, Repr

/-- Modelled from the spec: the path translator `PathFor` ("maps a path as
seen by the caller to the corresponding host path; identity function unless
the caller is running in an isolated namespace"), modelled as prefixing the
host root when namespace-isolated. -/
def PathFor (cfg : Config) (p : String) : String :=
  if cfg.Containerized then cfg.rootfs ++ p else p

/-- Result of one `provider.AttachVolume` call: either an error, or success
together with the `LocalDevice` value the provider wrote into the volume
(an empty string models a provider that reported success without setting
the device). -/
inductive AttachOutcome where
  | failure (e : String)
  | success (localDevice : String)
deriving DecidableEq, Repr

/-- Result of a controller routine.  `fatal` models `glog.Fatalf`, which
aborts the process instead of returning. -/
inductive Outcome (α : Type) where
  | ok (val : α)
  | error (e : String)
  | fatal (msg : String)
deriving DecidableEq, Repr

/-- Side-effecting calls the controller makes against its collaborators,
recorded in order. -/
inductive Effect where
  | attachCall (providerID : String)
  | sleep (seconds : Nat)
  | mkdirAll (path : String)
  | formatAndMount (device target fstype : String)
  | mount (source target fstype : String)
deriving DecidableEq, Repr

/-- The attach loop of `attachMasterVolumes` (mounter.go lines 230–248):
walk the candidates, breaking as soon as `attached` is non-empty; an attach
failure is logged and skipped; a success with an empty device is a fatal
contract violation; a success appends the volume (with its new
`LocalDevice`) to `attached`. -/
def attachLoop (attach : Volume → AttachOutcome) :
    List Volume → List Volume → Outcome (List Volume) × List Effect
  | [], attached => (.ok attached, [])
  | v :: rest, attached =>
    if attached.length > 0 then
      (.ok attached, [])
    else
      match attach v with
      | .failure _ =>
        let r := attachLoop attach rest attached
        (r.1, .attachCall v.ProviderID :: r.2)
      | .success dev =>
        if dev = "" then
          (.fatal "AttachVolume did not set LocalDevice", [.attachCall v.ProviderID])
        else
          let r := attachLoop attach rest (attached ++ [{ v with LocalDevice := dev }])
          (r.1, .attachCall v.ProviderID :: r.2)

/-- `attachMasterVolumes` (mounter.go lines 208–252): fetch the volumes,
partition into attach candidates (`AttachedTo` empty) and volumes already
attached locally (`LocalDevice` non-empty); if there is nothing to attach
return the attached set, otherwise run the attach loop. -/
def attachMasterVolumes (findVolumes : Except String (List Volume))
    (attach : Volume → AttachOutcome) : Outcome (List Volume) × List Effect :=
  match findVolumes with
  | .error e => (.error e, [])
  | .ok volumes =>
    let tryAttach := volumes.filter (fun v => v.AttachedTo == "")
    let attached := volumes.filter (fun v => v.LocalDevice != "")
    if tryAttach.length == 0 then
      (.ok attached, [])
    else
      attachLoop attach tryAttach attached

/-- Responses of the environment to the calls `safeFormatAndMount` makes for
one volume: the stream of `provider.FindMountedVolume` answers (one per poll
attempt; `.ok ""` means "no device yet"), the mount listing, and the results
of `os.MkdirAll`, `FormatAndMount`, `mount.GetDeviceNameFromMount` and the
in-container `Mount`. -/
structure MountEnv where
  FindMountedVolume : Nat → Except String String
  ListResult : Except String (List MountPoint)
  MkdirAllResult : Except String Unit
  FormatAndMountResult : Except String Unit
  GetDeviceNameFromMount : Except String String
  MountResult : Except String Unit

/-- The device-wait loop of `safeFormatAndMount` (mounter.go lines 97–112):
poll `FindMountedVolume` starting at attempt `i`; a provider error is
returned as such; a non-empty device ends the loop; an empty answer sleeps
one second and retries, forever.  `none` means the loop is still running
after `fuel` attempts. -/
def waitForDevice (resp : Nat → Except String String) :
    Nat → Nat → Option (Except String String × List Effect)
  | _, 0 => none
  | i, fuel + 1 =>
    match resp i with
    | .error e => some (.error e, [])
    | .ok s =>
      if s = "" then
        match waitForDevice resp (i + 1) fuel with
        | none => none
        | some (r, tr) => some (r, .sleep 1 :: tr)
      else
        some (.ok s, [])

/-- The host-side mount step of `safeFormatAndMount` (mounter.go lines
129–176): list the mounts, filter the entries at the target mountpoint; on
zero matches create the directory and format-and-mount; on exactly one
match treat the volume as already mounted (no action); on more than one
match fail. -/
def hostMountStep (cfg : Config) (env : MountEnv)
    (device mountpoint fstype : String) : Except String Unit × List Effect :=
  match env.ListResult with
  | .error e => (.error ("error listing existing mounts: " ++ e), [])
  | .ok mounts =>
    let existing := mounts.filter (fun m => m.Path == mountpoint)
    if existing.length == 0 then
      match env.MkdirAllResult with
      | .error e => (.error e, [.mkdirAll (PathFor cfg mountpoint)])
      | .ok _ =>
        match env.FormatAndMountResult with
        | .error e =>
          (.error ("error formatting and mounting disk " ++ device ++ " on "
             ++ mountpoint ++ ": " ++ e),
           [.mkdirAll (PathFor cfg mountpoint), .formatAndMount device mountpoint fstype])
        | .ok _ =>
          (.ok (),
           [.mkdirAll (PathFor cfg mountpoint), .formatAndMount device mountpoint fstype])
    else
      if existing.length != 1 then
        (.error ("found multiple existing mounts of " ++ device ++ " at " ++ mountpoint), [])
      else
        (.ok (), [])

/-- The namespace-bridge step of `safeFormatAndMount` (mounter.go lines
180–203), run only when containerized: ask which device is mounted at the
translated target inside the local namespace; a non-empty answer must equal
the raw device or its host-translated form (else a hard error) and is then
a no-op; an empty answer triggers a plain `Mount` of the device at the
target. -/
def bridgeMountStep (cfg : Config) (env : MountEnv)
    (device mountpoint fstype : String) : Except String Unit × List Effect :=
  if cfg.Containerized then
    let source := PathFor cfg device
    let target := PathFor cfg mountpoint
    match env.GetDeviceNameFromMount with
    | .error e =>
      (.error ("error checking for mounts of " ++ target ++ " inside container: " ++ e), [])
    | .ok mountedDevice =>
      if mountedDevice != "" then
        if mountedDevice != source && mountedDevice != device then
          (.error ("device already mounted at " ++ target ++ ", but is " ++ mountedDevice
             ++ " and we want " ++ source ++ " or " ++ device), [])
        else
          (.ok (), [])
      else
        match env.MountResult with
        | .error e =>
          (.error ("error mounting " ++ source ++ " inside container at " ++ target ++ ": " ++ e),
           [.mount source target fstype])
        | .ok _ =>
          (.ok (), [.mount source target fstype])
  else
    (.ok (), [])

/-- `safeFormatAndMount` (mounter.go lines 96–206): wait (unboundedly) for
the device, then run the host-side mount step, then — when containerized —
the namespace-bridge step.  `none` means the device-wait loop is still
running after `fuel` poll attempts. -/
def safeFormatAndMount (cfg : Config) (env : MountEnv) (_volume : Volume)
    (mountpoint fstype : String) (fuel : Nat) :
    Option (Except String Unit × List Effect) :=
  match waitForDevice env.FindMountedVolume 0 fuel with
  | none => none
  | some (.error e, trW) => some (.error e, trW)
  | some (.ok device, trW) =>
    match hostMountStep cfg env device mountpoint fstype with
    | (.error e, trH) => some (.error e, trW ++ trH)
    | (.ok _, trH) =>
      match bridgeMountStep cfg env device mountpoint fstype with
      | (.error e, trB) => some (.error e, trW ++ trH ++ trB)
      | (.ok _, trB) => some (.ok (), trW ++ trH ++ trB)

/-- Result of `os.Stat(PathFor "/mnt/disks")` in `mountMasterVolumes`:
the directory exists, does not exist, or stat failed with some other
error. -/
inductive StatResult where
  | found
  | notExist
  | statError (e : String)
deriving DecidableEq, Repr

/-- The mountpoint computation of `mountMasterVolumes` (mounter.go lines
63–73): default `/mnt/<MountName>`; when the container-optimized disk
directory `/mnt/disks` exists (checked via its host-translated path), use
`/mnt/disks/<MountName>`; any stat error other than not-exist is
propagated. -/
def computeMountpoint (stat : StatResult) (v : Volume) : Except String String :=
  match stat with
  | .statError e => .error ("error checking for /mnt/disks: " ++ e)
  | .notExist => .ok ("/mnt/" ++ v.MountName)
  | .found => .ok ("/mnt/disks/" ++ v.MountName)

/-- The controller state: the `mounted` map from `ProviderID` to volume,
modelled as an association list. -/
structure VolumeMountController where
  mounted : List (String × Volume)
deriving DecidableEq, Repr

/-- `newVolumeMountController`: the mounted map starts empty. -/
def newVolumeMountController : VolumeMountController := ⟨[]⟩

/-- The environment of one `mountMasterVolumes` call: the provider's
`FindVolumes` answer, its behavior on `AttachVolume`, the stat of the
container-optimized disk directory, the per-volume mount environment, and
the fuel bounding how long we are willing to unfold the device-wait
loop. -/
structure Env where
  FindVolumes : Except String (List Volume)
  AttachVolume : Volume → AttachOutcome
  statMntDisks : StatResult
  mountEnv : Volume → MountEnv
  fuel : Nat

/-- The mount loop of `mountMasterVolumes` (mounter.go lines 50–87): walk
the attached volumes, breaking as soon as the mounted map is non-empty;
skip volumes already in the map; compute the mountpoint (propagating a stat
error); a `safeFormatAndMount` failure is logged and skipped; on success
record the volume (with `Mountpoint` set to the host-translated target) in
the map.  `none` propagates a still-running device wait. -/
def mountLoop (cfg : Config) (env : Env) :
    List Volume → VolumeMountController →
    Option (Except String Unit × VolumeMountController)
  | [], k => some (.ok (), k)
  | v :: rest, k =>
    if k.mounted.length > 0 then
      some (.ok (), k)
    else
      match k.mounted.lookup v.ProviderID with
      | some _ => mountLoop cfg env rest k
      | none =>
        match computeMountpoint env.statMntDisks v with
        | .error e => some (.error e, k)
        | .ok mountpoint =>
          match safeFormatAndMount cfg (env.mountEnv v) v mountpoint "" env.fuel with
          | none => none
          | some (.error _, _) => mountLoop cfg env rest k
          | some (.ok _, _) =>
            mountLoop cfg env rest
              ⟨k.mounted ++ [(v.ProviderID, { v with Mountpoint := PathFor cfg mountpoint })]⟩

/-- `mountMasterVolumes` (mounter.go lines 41–94): run the attach phase
(wrapping its error, propagating a fatal abort), then the mount loop, and
return the volumes of the mounted map. -/
def mountMasterVolumes (cfg : Config) (env : Env) (k : VolumeMountController) :
    Option (Outcome (List Volume) × VolumeMountController) :=
  match attachMasterVolumes env.FindVolumes env.AttachVolume with
  | (.error e, _) => some (.error ("unable to attach master volumes: " ++ e), k)
  | (.fatal m, _) => some (.fatal m, k)
  | (.ok attached, _) =>
    match mountLoop cfg env attached k with
    | none => none
    | some (.error e, k2) => some (.error e, k2)
    | some (.ok _, k2) => some (.ok (k2.mounted.map Prod.snd), k2)

/-- Any number of successive `mountMasterVolumes` calls against one
controller instance: a call whose device-wait never completes blocks the
process (no further calls), and a fatal abort ends the process. -/
def runCalls (cfg : Config) : List Env → VolumeMountController → VolumeMountController
  | [], k => k
  | env :: rest, k =>
    match mountMasterVolumes cfg env k with
    | none => k
    | some (.fatal _, k2) => k2
    | some (.error _, k2) => runCalls cfg rest k2
    | some (.ok _, k2) => runCalls cfg rest k2

/-! ## Helper lemmas -/

/-- Once `attached` is non-empty, the attach loop stops immediately: it
returns `attached` unchanged and makes no further attach call. -/
theorem attachLoop_stop (attach : Volume → AttachOutcome) (l attached : List Volume)
    (h : 0 < attached.length) : attachLoop attach l attached = (.ok attached, []) := by
  cases l with
  | nil => simp [attachLoop]
  | cons v rest => simp [attachLoop, h]

/-- A prefix of candidates on which every attach call fails is walked
through: the loop's result is that of the remaining candidates, with the
failed attach calls prepended to the trace. -/
theorem attachLoop_failures (attach : Volume → AttachOutcome)
    (failed l : List Volume)
    (hFailed : ∀ u ∈ failed, ∃ e, attach u = .failure e) :
    attachLoop attach (failed ++ l) [] =
      ((attachLoop attach l []).1,
        failed.map (fun u => .attachCall u.ProviderID) ++ (attachLoop attach l []).2) := by
  induction failed with
  | nil => simp
  | cons u failed' ih =>
    obtain ⟨e, he⟩ := hFailed u (by simp)
    have ih' := ih (fun w hw => hFailed w (by simp [hw]))
    simp [attachLoop, he, ih']

/-- When no volume reports a local device, the locally-attached filter is
empty. -/
theorem filter_localDevice_nil (volumes : List Volume)
    (h : ∀ u ∈ volumes, u.LocalDevice = "") :
    volumes.filter (fun v => v.LocalDevice != "") = [] := by
  rw [List.filter_eq_nil_iff]
  intro u hu
  simp [h u hu]

/-- The attach phase under an all-empty-device listing whose candidate list
splits into failing candidates, a succeeding candidate `v` (device `dev`),
and a remainder. -/
theorem attachMasterVolumes_split (attach : Volume → AttachOutcome)
    (volumes failed rest : List Volume) (v : Volume) (dev : String)
    (hNoLocal : ∀ u ∈ volumes, u.LocalDevice = "")
    (hCand : volumes.filter (fun u => u.AttachedTo == "") = failed ++ v :: rest)
    (hFailed : ∀ u ∈ failed, ∃ e, attach u = .failure e)
    (hV : attach v = .success dev) :
    attachMasterVolumes (.ok volumes) attach =
      ((if dev = "" then .fatal "AttachVolume did not set LocalDevice"
        else .ok [{ v with LocalDevice := dev }]),
       failed.map (fun u => .attachCall u.ProviderID) ++ [.attachCall v.ProviderID]) := by
  have h1 := filter_localDevice_nil volumes hNoLocal
  have h2 := attachLoop_failures attach failed (v :: rest) hFailed
  by_cases hdev : dev = ""
  · simp [attachMasterVolumes, hCand, h1, h2, attachLoop, hV, hdev]
  · have hstop := attachLoop_stop attach rest [{ v with LocalDevice := dev }] (by simp)
    simp [attachMasterVolumes, hCand, h1, h2, attachLoop, hV, hdev, hstop]

/-- When the provider never reports a device (and never errors), the
device-wait loop is still running after any number of attempts. -/
theorem waitForDevice_none (resp : Nat → Except String String)
    (hall : ∀ j, resp j = .ok "") :
    ∀ fuel i, waitForDevice resp i fuel = none := by
  intro fuel
  induction fuel with
  | zero => intro i; rfl
  | succ m ih => intro i; simp [waitForDevice, hall i, ih (i + 1)]

/-- If the provider reports no device for the first `n` polls (counting from
`i`) and a non-empty device on poll `n`, the wait loop returns that device
after exactly `n` one-second sleeps. -/
theorem waitForDevice_reaches_ok (resp : Nat → Except String String) :
    ∀ n i d, (∀ j, j < n → resp (i + j) = .ok "") → resp (i + n) = .ok d → d ≠ "" →
      ∀ fuel, n < fuel →
        waitForDevice resp i fuel = some (.ok d, List.replicate n (Effect.sleep 1)) := by
  intro n
  induction n with
  | zero =>
    intro i d _ hn hd fuel hf
    obtain ⟨m, rfl⟩ : ∃ m, fuel = m + 1 := ⟨fuel - 1, by omega⟩
    have hi : resp i = .ok d := by simpa using hn
    simp [waitForDevice, hi, hd]
  | succ n ih =>
    intro i d hprev hn hd fuel hf
    obtain ⟨m, rfl⟩ : ∃ m, fuel = m + 1 := ⟨fuel - 1, by omega⟩
    have h0 : resp i = .ok "" := by simpa using hprev 0 (by omega)
    have ih' := ih (i + 1) d
      (fun j hj => by
        have h := hprev (j + 1) (by omega)
        rwa [show i + (j + 1) = i + 1 + j by omega] at h)
      (by rwa [show i + (n + 1) = i + 1 + n by omega] at hn) hd m (by omega)
    simp [waitForDevice, h0, ih', List.replicate_succ]

/-- If the provider reports no device for the first `n` polls (counting from
`i`) and the query itself fails on poll `n`, the wait loop returns that
error after exactly `n` one-second sleeps. -/
theorem waitForDevice_reaches_error (resp : Nat → Except String String) :
    ∀ n i e, (∀ j, j < n → resp (i + j) = .ok "") → resp (i + n) = .error e →
      ∀ fuel, n < fuel →
        waitForDevice resp i fuel = some (.error e, List.replicate n (Effect.sleep 1)) := by
  intro n
  induction n with
  | zero =>
    intro i e _ hn fuel hf
    obtain ⟨m, rfl⟩ : ∃ m, fuel = m + 1 := ⟨fuel - 1, by omega⟩
    have hi : resp i = .error e := by simpa using hn
    simp [waitForDevice, hi]
  | succ n ih =>
    intro i e hprev hn fuel hf
    obtain ⟨m, rfl⟩ : ∃ m, fuel = m + 1 := ⟨fuel - 1, by omega⟩
    have h0 : resp i = .ok "" := by simpa using hprev 0 (by omega)
    have ih' := ih (i + 1) e
      (fun j hj => by
        have h := hprev (j + 1) (by omega)
        rwa [show i + (j + 1) = i + 1 + j by omega] at h)
      (by rwa [show i + (n + 1) = i + 1 + n by omega] at hn) m (by omega)
    simp [waitForDevice, h0, ih', List.replicate_succ]

/-- The wait loop only ever completes with `ok` on a non-empty device
path. -/
theorem waitForDevice_ok_ne_empty (resp : Nat → Except String String) :
    ∀ fuel i d tr, waitForDevice resp i fuel = some (.ok d, tr) → d ≠ "" := by
  intro fuel
  induction fuel with
  | zero => intro i d tr h; simp [waitForDevice] at h
  | succ m ih =>
    intro i d tr h
    simp only [waitForDevice] at h
    cases hr : resp i with
    | error e => rw [hr] at h; simp at h
    | ok s =>
      by_cases hs : s = ""
      · simp only [hr, hs, if_pos rfl] at h
        cases hw : waitForDevice resp (i + 1) m with
        | none => rw [hw] at h; exact absurd h (by simp)
        | some p =>
          obtain ⟨r2, tr2⟩ := p
          rw [hw] at h
          simp at h
          exact ih (i + 1) d tr2 (by rw [hw, h.1])
      · simp only [hr, if_neg hs] at h
        simp at h
        rw [← h.1]
        exact hs

/-- If no poll response is an error, the wait loop never completes with an
error: the mere absence of a device is not an error condition. -/
theorem waitForDevice_no_error (resp : Nat → Except String String)
    (hne : ∀ j e, resp j ≠ .error e) :
    ∀ fuel i e tr, waitForDevice resp i fuel ≠ some (.error e, tr) := by
  intro fuel
  induction fuel with
  | zero => intro i e tr h; simp [waitForDevice] at h
  | succ m ih =>
    intro i e tr h
    simp only [waitForDevice] at h
    cases hr : resp i with
    | error e2 => exact hne i e2 hr
    | ok s =>
      by_cases hs : s = ""
      · simp only [hr, hs, if_pos rfl] at h
        cases hw : waitForDevice resp (i + 1) m with
        | none => rw [hw] at h; exact absurd h (by simp)
        | some p =>
          obtain ⟨r2, tr2⟩ := p
          rw [hw] at h
          simp at h
          exact ih (i + 1) e tr2 (by rw [hw, h.1])
      · simp only [hr, if_neg hs] at h
        simp at h

/-- Every effect the wait loop records is a one-second sleep. -/
theorem waitForDevice_trace_sleeps (resp : Nat → Except String String) :
    ∀ fuel i r tr, waitForDevice resp i fuel = some (r, tr) →
      ∀ ef ∈ tr, ef = Effect.sleep 1 := by
  intro fuel
  induction fuel with
  | zero => intro i r tr h; simp [waitForDevice] at h
  | succ m ih =>
    intro i r tr h
    simp only [waitForDevice] at h
    cases hr : resp i with
    | error e => rw [hr] at h; simp at h; rw [h.2]; simp
    | ok s =>
      by_cases hs : s = ""
      · simp only [hr, hs, if_pos rfl] at h
        cases hw : waitForDevice resp (i + 1) m with
        | none => rw [hw] at h; exact absurd h (by simp)
        | some p =>
          obtain ⟨r2, tr2⟩ := p
          rw [hw] at h
          simp at h
          intro ef hef
          rw [← h.2] at hef
          simp at hef
          rcases hef with hef | hef
          · exact hef
          · exact ih (i + 1) r2 tr2 (by rw [hw]) ef hef
      · simp only [hr, if_neg hs] at h
        simp at h
        rw [h.2]
        simp

/-! ## Claims -/

/-- C3: whenever the attach phase finds at least one volume already attached
locally (non-empty `LocalDevice`), it returns exactly the set of locally
attached volumes and makes no `AttachVolume` call on any candidate (empty
trace). -/
theorem C3_already_attached_returns_set_no_attach_calls
    (findVolumes : Except String (List Volume)) (attach : Volume → AttachOutcome)
    (volumes : List Volume)
    (hF : findVolumes = .ok volumes)
    (hAtt : volumes.filter (fun v => v.LocalDevice != "") ≠ []) :
    attachMasterVolumes findVolumes attach =
      (.ok (volumes.filter (fun v => v.LocalDevice != "")), []) := by
  subst hF
  have hlen : 0 < (volumes.filter (fun v => v.LocalDevice != "")).length :=
    List.length_pos.mpr hAtt
  unfold attachMasterVolumes
  by_cases h : (volumes.filter (fun v => v.AttachedTo == "")).length = 0
  · simp [h]
  · simp [h, attachLoop_stop attach _ _ hlen]

/-- C3 witness. -/
theorem C3_witness :
    attachMasterVolumes
      (.ok [⟨"vol-1", "i-1234", "/dev/xvdb", "master-data", ""⟩,
            ⟨"vol-2", "", "", "master-data", ""⟩])
      (fun _ => .failure "should not be called") =
      (.ok [⟨"vol-1", "i-1234", "/dev/xvdb", "master-data", ""⟩], []) := by
  have h := C3_already_attached_returns_set_no_attach_calls
    (.ok [⟨"vol-1", "i-1234", "/dev/xvdb", "master-data", ""⟩,
          ⟨"vol-2", "", "", "master-data", ""⟩])
    (fun _ => .failure "should not be called")
    [⟨"vol-1", "i-1234", "/dev/xvdb", "master-data", ""⟩,
     ⟨"vol-2", "", "", "master-data", ""⟩]
    rfl (by decide)
  simpa using h

/-- C2: if the provider's `AttachVolume` call reports success but leaves the
volume's `LocalDevice` empty, the whole orchestration aborts the process
(fatal): it returns neither normally nor with an ordinary error, the
controller state is untouched, and no mountpoint computation or mount step
is reached. -/
theorem C2_attach_success_without_device_is_fatal
    (cfg : Config) (env : Env) (k : VolumeMountController)
    (volumes failed rest : List Volume) (v : Volume)
    (hF : env.FindVolumes = .ok volumes)
    (hNoLocal : ∀ u ∈ volumes, u.LocalDevice = "")
    (hCand : volumes.filter (fun u => u.AttachedTo == "") = failed ++ v :: rest)
    (hFailed : ∀ u ∈ failed, ∃ e, env.AttachVolume u = .failure e)
    (hV : env.AttachVolume v = .success "") :
    mountMasterVolumes cfg env k =
      some (.fatal "AttachVolume did not set LocalDevice", k) := by
  have h := attachMasterVolumes_split env.AttachVolume volumes failed rest v ""
    hNoLocal hCand hFailed hV
  simp only [if_pos rfl] at h
  simp [mountMasterVolumes, hF, h]

/-- C2 witness. -/
theorem C2_witness :
    mountMasterVolumes ⟨false, ""⟩
      ⟨.ok [⟨"vol-1", "", "", "master-data", ""⟩],
       fun _ => .success "",
       .notExist,
       fun _ => ⟨fun _ => .ok "", .ok [], .ok (), .ok (), .ok "", .ok ()⟩,
       0⟩
      newVolumeMountController =
      some (.fatal "AttachVolume did not set LocalDevice", newVolumeMountController) := by
  exact C2_attach_success_without_device_is_fatal _ _ _
    [⟨"vol-1", "", "", "master-data", ""⟩] [] []
    ⟨"vol-1", "", "", "master-data", ""⟩
    rfl (by decide) (by decide) (by simp) rfl

/-- C4: when every volume lacks a local device and, among the candidates
with empty `AttachedTo`, the provider's `AttachVolume` fails on each of the
first K candidates and succeeds on the (K+1)-th (setting its
`LocalDevice`), the attach phase returns exactly that (K+1)-th volume as
attached — an `ok` result, so none of the K failures surfaces as an error —
having called attach on exactly the first K+1 candidates. -/
theorem C4_race_tolerance_first_success_returned
    (findVolumes : Except String (List Volume)) (attach : Volume → AttachOutcome)
    (volumes failed rest : List Volume) (v : Volume) (dev : String)
    (hF : findVolumes = .ok volumes)
    (hNoLocal : ∀ u ∈ volumes, u.LocalDevice = "")
    (hCand : volumes.filter (fun u => u.AttachedTo == "") = failed ++ v :: rest)
    (hFailed : ∀ u ∈ failed, ∃ e, attach u = .failure e)
    (hV : attach v = .success dev) (hDev : dev ≠ "") :
    attachMasterVolumes findVolumes attach =
      (.ok [{ v with LocalDevice := dev }],
       failed.map (fun u => .attachCall u.ProviderID) ++ [.attachCall v.ProviderID]) := by
  subst hF
  have h := attachMasterVolumes_split attach volumes failed rest v dev
    hNoLocal hCand hFailed hV
  simpa [hDev] using h

/-- C4 witness: two candidates, the first attach fails (race lost), the
second succeeds. -/
theorem C4_witness :
    attachMasterVolumes
      (.ok [⟨"vol-a", "", "", "master-data", ""⟩,
            ⟨"vol-b", "", "", "master-data", ""⟩])
      (fun u => if u.ProviderID == "vol-a" then .failure "race lost"
                else .success "/dev/xvdb") =
      (.ok [⟨"vol-b", "", "/dev/xvdb", "master-data", ""⟩],
       [.attachCall "vol-a", .attachCall "vol-b"]) := by
  have h := C4_race_tolerance_first_success_returned
    (.ok [⟨"vol-a", "", "", "master-data", ""⟩,
          ⟨"vol-b", "", "", "master-data", ""⟩])
    (fun u => if u.ProviderID == "vol-a" then .failure "race lost"
              else .success "/dev/xvdb")
    [⟨"vol-a", "", "", "master-data", ""⟩,
     ⟨"vol-b", "", "", "master-data", ""⟩]
    [⟨"vol-a", "", "", "master-data", ""⟩] []
    ⟨"vol-b", "", "", "master-data", ""⟩ "/dev/xvdb"
    rfl (by decide) (by decide)
    (by intro u hu; simp at hu; subst hu; exact ⟨"race lost", rfl⟩)
    rfl (by decide)
  simpa using h

/-- C5: for a volume whose `MountName` is `"master-data"`, the computed
mount target is `/mnt/master-data` when the container-optimized disk
directory does not exist, and `/mnt/disks/master-data` when it exists. -/
theorem C5_mountpoint_derivation (v : Volume) (h : v.MountName = "master-data") :
    computeMountpoint .notExist v = .ok "/mnt/master-data" ∧
    computeMountpoint .found v = .ok "/mnt/disks/master-data" := by
  obtain ⟨pid, a, ld, mn, mp⟩ := v
  simp only at h
  subst h
  exact ⟨rfl, rfl⟩

/-- C5 witness. -/
theorem C5_witness :
    computeMountpoint .notExist ⟨"vol-1", "", "/dev/xvdb", "master-data", ""⟩ =
        .ok "/mnt/master-data" ∧
    computeMountpoint .found ⟨"vol-1", "", "/dev/xvdb", "master-data", ""⟩ =
        .ok "/mnt/disks/master-data" :=
  C5_mountpoint_derivation ⟨"vol-1", "", "/dev/xvdb", "master-data", ""⟩ rfl

/-- C9: the device-wait step polls the provider with a fixed one-second
sleep between attempts, unboundedly and without cancellation.  Concretely:
(1) when the provider never reports a device, no number of attempts
completes the loop (it is still polling after any fuel — no upper bound,
and the absence of a device never produced an error); (2) when the first
non-empty device path appears on poll `n`, the loop completes with exactly
that device after exactly `n` one-second sleeps; (3) the loop only ever
completes `ok` with a non-empty device path; (4) under a stream with no
query errors, the loop never completes with an error, whatever the
responses. -/
theorem C9_device_wait_unbounded_fixed_interval
    (resp : Nat → Except String String) (n : Nat) (d : String)
    (hprev : ∀ j, j < n → resp j = .ok "")
    (hn : resp n = .ok d) (hd : d ≠ "") :
    (∀ fuel, waitForDevice (fun _ => .ok "") 0 fuel = none) ∧
    (∀ fuel, n < fuel →
      waitForDevice resp 0 fuel = some (.ok d, List.replicate n (Effect.sleep 1))) ∧
    (∀ resp2 fuel i d2 tr,
      waitForDevice (resp2 : Nat → Except String String) i fuel = some (.ok d2, tr) →
        d2 ≠ "") ∧
    (∀ (resp2 : Nat → Except String String), (∀ j e, resp2 j ≠ .error e) →
      ∀ fuel i e tr, waitForDevice resp2 i fuel ≠ some (.error e, tr)) := by
  refine ⟨fun fuel => waitForDevice_none _ (fun _ => rfl) fuel 0, fun fuel hf => ?_, ?_, ?_⟩
  · exact waitForDevice_reaches_ok resp n 0 d (by simpa using hprev) (by simpa using hn) hd fuel hf
  · intro resp2 fuel i d2 tr h
    exact waitForDevice_ok_ne_empty resp2 fuel i d2 tr h
  · intro resp2 hne fuel i e tr
    exact waitForDevice_no_error resp2 hne fuel i e tr

/-- C9 witness: the device appears on the third poll (index 2). -/
theorem C9_witness :
    waitForDevice (fun _ => .ok "") 0 5 = none ∧
    waitForDevice (fun j => if j < 2 then .ok "" else .ok "/dev/xvdb") 0 3 =
      some (.ok "/dev/xvdb", List.replicate 2 (Effect.sleep 1)) := by
  have h := C9_device_wait_unbounded_fixed_interval
    (fun j => if j < 2 then .ok "" else .ok "/dev/xvdb") 2 "/dev/xvdb"
    (fun j hj => by simp [hj]) (by simp) (by decide)
  exact ⟨h.1 5, h.2.1 3 (by omega)⟩

/-- C10: if the provider's `FindMountedVolume` query itself fails during the
device-wait poll (on poll `n`, after `n` empty answers), the mount step
returns that very error: the otherwise-unbounded loop ends at the error
instead of retrying, having performed only the `n` sleeps. -/
theorem C10_find_mounted_volume_error_propagates
    (cfg : Config) (env : MountEnv) (volume : Volume) (mountpoint fstype : String)
    (n : Nat) (e : String)
    (hprev : ∀ j, j < n → env.FindMountedVolume j = .ok "")
    (hn : env.FindMountedVolume n = .error e) :
    ∀ fuel, n < fuel →
      safeFormatAndMount cfg env volume mountpoint fstype fuel =
        some (.error e, List.replicate n (Effect.sleep 1)) := by
  intro fuel hf
  have hw := waitForDevice_reaches_error env.FindMountedVolume n 0 e
    (by simpa using hprev) (by simpa using hn) fuel hf
  simp [safeFormatAndMount, hw]

/-- C10 witness: one empty poll, then the provider fails. -/
theorem C10_witness :
    safeFormatAndMount ⟨false, ""⟩
      ⟨fun j => if j < 1 then .ok "" else .error "provider down",
       .ok [], .ok (), .ok (), .ok "", .ok ()⟩
      ⟨"vol-1", "", "/dev/xvdb", "master-data", ""⟩ "/mnt/master-data" "" 2 =
      some (.error "provider down", List.replicate 1 (Effect.sleep 1)) := by
  exact C10_find_mounted_volume_error_propagates _ _ _ _ _ 1 "provider down"
    (fun j hj => by simp [hj]) (by simp) 2 (by omega)

/-- C6: with two or more mount-listing entries at the target, the mount step
fails with the ambiguity error and mutates nothing: its trace is exactly the
wait loop's sleeps — no directory creation, no format-and-mount, and no
namespace-bridge mount. -/
theorem C6_ambiguous_mounts_error_no_mutation
    (cfg : Config) (env : MountEnv) (volume : Volume)
    (mountpoint fstype device : String) (fuel : Nat) (trW : List Effect)
    (mounts : List MountPoint)
    (hW : waitForDevice env.FindMountedVolume 0 fuel = some (.ok device, trW))
    (hL : env.ListResult = .ok mounts)
    (hMulti : 2 ≤ (mounts.filter (fun m => m.Path == mountpoint)).length) :
    safeFormatAndMount cfg env volume mountpoint fstype fuel =
      some (.error ("found multiple existing mounts of " ++ device ++ " at " ++ mountpoint),
        trW) ∧
    ∀ ef ∈ trW, ef = Effect.sleep 1 := by
  have hne0 : (mounts.filter (fun m => m.Path == mountpoint)).length ≠ 0 := by omega
  have hne1 : (mounts.filter (fun m => m.Path == mountpoint)).length ≠ 1 := by omega
  have hH : hostMountStep cfg env device mountpoint fstype =
      (.error ("found multiple existing mounts of " ++ device ++ " at " ++ mountpoint), []) := by
    simp [hostMountStep, hL, hne0, hne1]
  constructor
  · simp [safeFormatAndMount, hW, hH]
  · exact waitForDevice_trace_sleeps _ _ _ _ _ hW

/-- C6 witness: two entries at the target. -/
theorem C6_witness :
    safeFormatAndMount ⟨false, ""⟩
      ⟨fun _ => .ok "/dev/xvdb",
       .ok [⟨"/dev/xvdb", "/mnt/master-data"⟩, ⟨"/dev/sdb", "/mnt/master-data"⟩],
       .ok (), .ok (), .ok "", .ok ()⟩
      ⟨"vol-1", "", "/dev/xvdb", "master-data", ""⟩ "/mnt/master-data" "" 1 =
      some (.error "found multiple existing mounts of /dev/xvdb at /mnt/master-data", []) ∧
    ∀ ef ∈ ([] : List Effect), ef = Effect.sleep 1 := by
  exact C6_ambiguous_mounts_error_no_mutation _ _ _ _ _ "/dev/xvdb" 1 []
    [⟨"/dev/xvdb", "/mnt/master-data"⟩, ⟨"/dev/sdb", "/mnt/master-data"⟩]
    rfl rfl (by decide)

/-- C7 counterexample: the claim "exactly one matching entry implies the
mount step succeeds" fails in namespace-isolated mode when a different
device is mounted at the target inside the local namespace: the listing has
exactly one entry at the target, yet the step returns a hard error. -/
theorem C7_counterexample :
    (([⟨"/dev/xvdb", "/mnt/master-data"⟩] : List MountPoint).filter
        (fun m => m.Path == "/mnt/master-data")).length = 1 ∧
    safeFormatAndMount ⟨true, "/rootfs"⟩
      ⟨fun _ => .ok "/dev/xvdb", .ok [⟨"/dev/xvdb", "/mnt/master-data"⟩],
       .ok (), .ok (), .ok "/dev/sda1", .ok ()⟩
      ⟨"vol-1", "", "/dev/xvdb", "master-data", ""⟩ "/mnt/master-data" "" 1 =
      some (.error ("device already mounted at /rootfs/mnt/master-data, but is " ++
        "/dev/sda1 and we want /rootfs/dev/xvdb or /dev/xvdb"), []) := by
  constructor
  · rfl
  · rfl

/-- C7 (amended): with exactly one mount-listing entry at the target, the
host-side step performs zero `FormatAndMount` (and zero mkdir) calls; the
mount step succeeds outright when not namespace-isolated, and in
namespace-isolated mode it succeeds with no further mount action when the
device already mounted in the local namespace matches the raw or
host-translated device.  The whole trace is then just the wait loop's
sleeps, so a second invocation against the same (unmutated) state again
performs zero format/mount calls and succeeds. -/
theorem C7_one_match_idempotent_no_format
    (cfg : Config) (env : MountEnv) (volume : Volume)
    (mountpoint fstype device : String) (fuel : Nat) (trW : List Effect)
    (mounts : List MountPoint)
    (hW : waitForDevice env.FindMountedVolume 0 fuel = some (.ok device, trW))
    (hL : env.ListResult = .ok mounts)
    (hOne : (mounts.filter (fun m => m.Path == mountpoint)).length = 1) :
    hostMountStep cfg env device mountpoint fstype = (.ok (), []) ∧
    (cfg.Containerized = false →
      safeFormatAndMount cfg env volume mountpoint fstype fuel = some (.ok (), trW)) ∧
    (∀ d, env.GetDeviceNameFromMount = .ok d → d ≠ "" →
      (d = device ∨ d = PathFor cfg device) →
      safeFormatAndMount cfg env volume mountpoint fstype fuel = some (.ok (), trW)) ∧
    (∀ ef ∈ trW, ef = Effect.sleep 1) := by
  have hne0 : (mounts.filter (fun m => m.Path == mountpoint)).length ≠ 0 := by omega
  have hH : hostMountStep cfg env device mountpoint fstype = (.ok (), []) := by
    simp [hostMountStep, hL, hne0, hOne]
  refine ⟨hH, fun hc => ?_, fun d hG hdne hmatch => ?_, ?_⟩
  · simp [safeFormatAndMount, hW, hH, bridgeMountStep, hc]
  · by_cases hc : cfg.Containerized
    · have hbr : bridgeMountStep cfg env device mountpoint fstype = (.ok (), []) := by
        rcases hmatch with h | h <;> subst h <;>
          simp [bridgeMountStep, hc, hG, hdne]
      simp [safeFormatAndMount, hW, hH, hbr]
    · simp [safeFormatAndMount, hW, hH, bridgeMountStep, hc]
  · exact waitForDevice_trace_sleeps _ _ _ _ _ hW

/-- C7 witness (non-isolated mode, one matching entry: immediate success
with no format/mount). -/
theorem C7_witness :
    safeFormatAndMount ⟨false, ""⟩
      ⟨fun _ => .ok "/dev/xvdb", .ok [⟨"/dev/xvdb", "/mnt/master-data"⟩],
       .ok (), .ok (), .ok "", .ok ()⟩
      ⟨"vol-1", "", "/dev/xvdb", "master-data", ""⟩ "/mnt/master-data" "" 1 =
      some (.ok (), []) := by
  exact (C7_one_match_idempotent_no_format ⟨false, ""⟩
    ⟨fun _ => .ok "/dev/xvdb", .ok [⟨"/dev/xvdb", "/mnt/master-data"⟩],
     .ok (), .ok (), .ok "", .ok ()⟩
    ⟨"vol-1", "", "/dev/xvdb", "master-data", ""⟩ "/mnt/master-data" "" "/dev/xvdb" 1 []
    [⟨"/dev/xvdb", "/mnt/master-data"⟩] rfl rfl (by decide)).2.1 rfl

/-- C8: in namespace-isolated mode, once the device is found and the
host-side step has succeeded, the bridge behaves as follows.  A non-empty
device `d` already mounted at the translated target is a no-op (success,
nothing appended to the trace) exactly when `d` is the raw device or its
host-translated form, and any other `d` is a hard error; an empty answer
triggers a plain (no-format) `Mount` of the translated device at the
translated target, whose result is the step's result. -/
theorem C8_bridge_step_device_check
    (cfg : Config) (env : MountEnv) (volume : Volume)
    (mountpoint fstype device : String) (fuel : Nat) (trW trH : List Effect)
    (hC : cfg.Containerized = true)
    (hW : waitForDevice env.FindMountedVolume 0 fuel = some (.ok device, trW))
    (hH : hostMountStep cfg env device mountpoint fstype = (.ok (), trH)) :
    (∀ d, env.GetDeviceNameFromMount = .ok d → d ≠ "" →
      ((d = device ∨ d = PathFor cfg device) →
        safeFormatAndMount cfg env volume mountpoint fstype fuel =
          some (.ok (), trW ++ trH)) ∧
      (d ≠ device → d ≠ PathFor cfg device →
        safeFormatAndMount cfg env volume mountpoint fstype fuel =
          some (.error ("device already mounted at " ++ PathFor cfg mountpoint
            ++ ", but is " ++ d ++ " and we want " ++ PathFor cfg device
            ++ " or " ++ device), trW ++ trH))) ∧
    (env.GetDeviceNameFromMount = .ok "" →
      (env.MountResult = .ok () →
        safeFormatAndMount cfg env volume mountpoint fstype fuel =
          some (.ok (), trW ++ trH ++
            [Effect.mount (PathFor cfg device) (PathFor cfg mountpoint) fstype])) ∧
      (∀ e, env.MountResult = .error e →
        safeFormatAndMount cfg env volume mountpoint fstype fuel =
          some (.error ("error mounting " ++ PathFor cfg device
            ++ " inside container at " ++ PathFor cfg mountpoint ++ ": " ++ e),
            trW ++ trH ++
            [Effect.mount (PathFor cfg device) (PathFor cfg mountpoint) fstype]))) := by
  constructor
  · intro d hG hdne
    constructor
    · intro hmatch
      have hbr : bridgeMountStep cfg env device mountpoint fstype = (.ok (), []) := by
        rcases hmatch with h | h <;> subst h <;>
          simp [bridgeMountStep, hC, hG, hdne]
      simp [safeFormatAndMount, hW, hH, hbr]
    · intro hd1 hd2
      have hbr : bridgeMountStep cfg env device mountpoint fstype =
          (.error ("device already mounted at " ++ PathFor cfg mountpoint
            ++ ", but is " ++ d ++ " and we want " ++ PathFor cfg device
            ++ " or " ++ device), []) := by
        simp [bridgeMountStep, hC, hG, hdne, hd1, hd2]
      simp [safeFormatAndMount, hW, hH, hbr]
  · intro hG
    constructor
    · intro hM
      have hbr : bridgeMountStep cfg env device mountpoint fstype =
          (.ok (), [Effect.mount (PathFor cfg device) (PathFor cfg mountpoint) fstype]) := by
        simp [bridgeMountStep, hC, hG, hM]
      simp [safeFormatAndMount, hW, hH, hbr]
    · intro e hM
      have hbr : bridgeMountStep cfg env device mountpoint fstype =
          (.error ("error mounting " ++ PathFor cfg device
            ++ " inside container at " ++ PathFor cfg mountpoint ++ ": " ++ e),
           [Effect.mount (PathFor cfg device) (PathFor cfg mountpoint) fstype]) := by
        simp [bridgeMountStep, hC, hG, hM]
      simp [safeFormatAndMount, hW, hH, hbr]

/-- C8 witness: the local namespace already has the raw device mounted at
the target, so the bridge is a no-op and the step succeeds. -/
theorem C8_witness :
    safeFormatAndMount ⟨true, "/rootfs"⟩
      ⟨fun _ => .ok "/dev/xvdb", .ok [⟨"/dev/xvdb", "/mnt/master-data"⟩],
       .ok (), .ok (), .ok "/dev/xvdb", .ok ()⟩
      ⟨"vol-1", "", "/dev/xvdb", "master-data", ""⟩ "/mnt/master-data" "" 1 =
      some (.ok (), []) := by
  have h := C8_bridge_step_device_check ⟨true, "/rootfs"⟩
    ⟨fun _ => .ok "/dev/xvdb", .ok [⟨"/dev/xvdb", "/mnt/master-data"⟩],
     .ok (), .ok (), .ok "/dev/xvdb", .ok ()⟩
    ⟨"vol-1", "", "/dev/xvdb", "master-data", ""⟩
    "/mnt/master-data" "" "/dev/xvdb" 1 [] []
    rfl rfl rfl
  exact (h.1 "/dev/xvdb" rfl (by decide)).1 (Or.inl rfl)

/-- The mount loop preserves the bound of one entry on the mounted map: it
only inserts when the map is empty, and stops as soon as it is
non-empty. -/
theorem mountLoop_length_le (cfg : Config) (env : Env) :
    ∀ (vs : List Volume) (k : VolumeMountController) r k2,
      mountLoop cfg env vs k = some (r, k2) → k.mounted.length ≤ 1 →
        k2.mounted.length ≤ 1 := by
  intro vs
  induction vs with
  | nil =>
    intro k r k2 h hk
    simp [mountLoop] at h
    rw [← h.2]
    exact hk
  | cons v rest ih =>
    intro k r k2 h hk
    simp only [mountLoop] at h
    by_cases hlen : k.mounted.length > 0
    · rw [if_pos hlen] at h
      simp at h
      rw [← h.2]
      exact hk
    · rw [if_neg hlen] at h
      cases hlk : k.mounted.lookup v.ProviderID with
      | some w =>
        simp only [hlk] at h
        exact ih k r k2 h hk
      | none =>
        simp only [hlk] at h
        cases hmp : computeMountpoint env.statMntDisks v with
        | error e =>
          simp only [hmp] at h
          simp at h
          rw [← h.2]
          exact hk
        | ok mp =>
          simp only [hmp] at h
          cases hsf : safeFormatAndMount cfg (env.mountEnv v) v mp "" env.fuel with
          | none =>
            simp only [hsf] at h
            exact Option.noConfusion h
          | some p =>
            obtain ⟨rr, tr⟩ := p
            simp only [hsf] at h
            cases rr with
            | error e => exact ih k r k2 h hk
            | ok u =>
              refine ih _ r k2 h ?_
              have h0 : k.mounted.length = 0 := by omega
              simp [h0]

/-- One `mountMasterVolumes` call preserves the bound of one entry on the
mounted map. -/
theorem mountMasterVolumes_length_le (cfg : Config) (env : Env)
    (k : VolumeMountController) (r : Outcome (List Volume))
    (k2 : VolumeMountController)
    (h : mountMasterVolumes cfg env k = some (r, k2))
    (hk : k.mounted.length ≤ 1) : k2.mounted.length ≤ 1 := by
  unfold mountMasterVolumes at h
  cases hA : attachMasterVolumes env.FindVolumes env.AttachVolume with
  | mk ra tra =>
    rw [hA] at h
    cases ra with
    | error e =>
      simp at h
      rw [← h.2]
      exact hk
    | fatal m =>
      simp at h
      rw [← h.2]
      exact hk
    | ok attached =>
      cases hm : mountLoop cfg env attached k with
      | none =>
        simp only [hm] at h
        exact Option.noConfusion h
      | some p =>
        obtain ⟨rr, kk⟩ := p
        have hkk := mountLoop_length_le cfg env attached k rr kk hm hk
        cases rr with
        | error e =>
          simp only [hm] at h
          simp at h
          rw [← h.2]
          exact hkk
        | ok u =>
          simp only [hm] at h
          simp at h
          rw [← h.2]
          exact hkk

/-- Any sequence of `mountMasterVolumes` calls preserves the bound of one
entry on the mounted map. -/
theorem runCalls_length_le (cfg : Config) :
    ∀ (envs : List Env) (k : VolumeMountController), k.mounted.length ≤ 1 →
      (runCalls cfg envs k).mounted.length ≤ 1 := by
  intro envs
  induction envs with
  | nil => intro k hk; exact hk
  | cons env rest ih =>
    intro k hk
    simp only [runCalls]
    cases hm : mountMasterVolumes cfg env k with
    | none => exact hk
    | some p =>
      obtain ⟨r, k2⟩ := p
      have hk2 := mountMasterVolumes_length_le cfg env k r k2 hm hk
      cases r with
      | ok _ => exact ih k2 hk2
      | error _ => exact ih k2 hk2
      | fatal _ => exact hk2

/-- C1: starting from a freshly constructed controller, across any number
of `mountMasterVolumes` calls — whatever volume sequences the provider
returns and however the mount attempts fare — the controller's mounted-state
mapping never holds more than one entry: at most one volume is ever
mounted, the controller stopping after the first successful mount. -/
theorem C1_mounted_at_most_one (cfg : Config) (envs : List Env) :
    (runCalls cfg envs newVolumeMountController).mounted.length ≤ 1 :=
  runCalls_length_le cfg envs newVolumeMountController
    (by simp [newVolumeMountController])

end Volumes
